import Mathlib

/-
Verification of the tg-users-database store and scheduler core.

Shallow embedding of:
  * pkg/db/db.go        — the SQLite-backed Store (users/subscriptions CRUD)
  * pkg/scheduler/checkSubscriptions.go — the subscription lifecycle engine
    and the monthly traffic-reset engine with its file checkpoint.

Modelling conventions:
  * `time.Time` values are `GoTime` records: a wall-clock reading (seconds,
    as the textual representation would show it) plus a zone offset in
    seconds.  `t.After u` / `t.Before u` compare instants (wall - offset),
    as Go does.
  * The layout string `"2006-01-02T15:04:05Z"` contains a *literal* `Z`
    (Go only treats `Z07:00`-style sequences as zone specifiers), so
    `FormatTime` serializes only the wall-clock reading, and parsing the
    stored string back yields a UTC time (offset 0).  The stored DATE
    columns are therefore modelled as the wall-clock integer alone.
  * SQLite REAL `traffic` values are modelled as rationals; the operations
    under verification only store, copy and compare them.
  * Errors returned by the Go methods are modelled as `Option String`
    (`none` = nil error); state-changing methods return the post-state
    together with the error, since a failing call can still have mutated
    the store (no transactions are used in the source).
-/

namespace TgDb

/-- Model of Go `time.Time`: wall-clock reading (in seconds, as it would be
printed without a zone suffix) together with the zone offset in seconds. -/
structure GoTime where
  wall : Int
  offset : Int
deriving DecidableEq, Repr

/-- The instant a `GoTime` denotes (seconds since epoch, UTC). -/
def GoTime.instant (t : GoTime) : Int := t.wall - t.offset

/-- Go `t.After(u)`: instant comparison. -/
def GoTime.after (t u : GoTime) : Bool := u.instant < t.instant

/-- Go `t.Before(u)`: instant comparison. -/
def GoTime.before (t u : GoTime) : Bool := t.instant < u.instant

/-- Go zero value `time.Time{}` (the epoch marker the lifecycle engine
writes into an expired subscription). -/
def GoTime.zero : GoTime := ⟨0, 0⟩

/-- Embeds `FormatTime` (db.go): `t.Format("2006-01-02T15:04:05Z")`.  The `Z` in
the layout is a literal character, not a zone specifier, so the output
encodes only the wall-clock reading of `t` in its own zone. -/
def FormatTime (t : GoTime) : Int := t.wall

/-- Embeds `time.Parse("2006-01-02T15:04:05Z", s)` on a stored value: the layout
carries no zone information, so the result is the wall-clock reading
interpreted in UTC (offset 0). -/
def parseTime (w : Int) : GoTime := ⟨w, 0⟩

/-- The `strings.TrimSpace(user.Username) == ""` validation of
`CreateUser`: trimming yields the empty string exactly when every
character of the username is white space. -/
def isBlank (s : String) : Bool := s.toList.all (fun c => c.isWhitespace)

/-- In-memory `Subscription` struct (db.go). -/
structure Subscription where
  id : Int
  subscriptionStatus : String
  duration : String
  startSubscription : GoTime
  endSubscription : GoTime
deriving DecidableEq, Repr

/-- In-memory `User` struct (db.go). -/
structure User where
  username : String
  subscription : Subscription
  traffic : Rat
  chatID : Int
deriving DecidableEq, Repr

/-- A row of the `subscriptions` table.  The DATE columns hold the strings
produced by `FormatTime`, modelled by the wall-clock integer. -/
structure SubRow where
  id : Int
  subscriptionStatus : String
  duration : String
  startSubscription : Int
  endSubscription : Int
deriving DecidableEq, Repr

/-- A row of the `users` table (`username` is the primary key,
`subscription_id` the foreign key, `traffic REAL DEFAULT 0`). -/
structure UserRow where
  username : String
  subscriptionId : Int
  traffic : Rat
  chatId : Int
deriving DecidableEq, Repr

/-- The relational store: both tables plus the AUTOINCREMENT counter of
`subscriptions.id`. -/
structure Store where
  users : List UserRow
  subs : List SubRow
  nextSubId : Int
deriving DecidableEq, Repr

/-- The `subscriptions` row that `addSubscription` inserts for a given
in-memory subscription and allocated id. -/
def subRowOf (sid : Int) (sub : Subscription) : SubRow :=
  ⟨sid, sub.subscriptionStatus, sub.duration,
   FormatTime sub.startSubscription, FormatTime sub.endSubscription⟩

/-- Embeds `Database.addSubscription` (db.go): INSERT INTO subscriptions, returning
the auto-assigned id. -/
def Store.addSubscription (s : Store) (sub : Subscription) : Int × Store :=
  let sid := s.nextSubId
  (sid, { s with subs := s.subs ++ [subRowOf sid sub], nextSubId := sid + 1 })

/-- Embeds `Database.IsUserExists` (db.go): `SELECT EXISTS(SELECT 1 FROM users
WHERE username = ?)`. -/
def Store.isUserExists (s : Store) (username : String) : Bool :=
  s.users.any (fun r => r.username == username)

/-- Lookup of the `users` row with the given primary key (the row the
WHERE clauses of db.go select). -/
def Store.findUser (s : Store) (username : String) : Option UserRow :=
  s.users.find? (fun r => r.username == username)

/-- Lookup of the `subscriptions` row with the given id. -/
def Store.findSub (s : Store) (sid : Int) : Option SubRow :=
  s.subs.find? (fun r => r.id == sid)

/-- Embeds `Database.CreateUser` (db.go): rejects a blank username, inserts the
subscription row, then inserts the user row (`traffic` is not in the column
list, so it takes its DEFAULT 0).  The user insert fails when the username
primary key already exists; no transaction wraps the two inserts, so the
post-state of a failing call keeps the already-inserted subscription row. -/
def Store.createUser (s : Store) (u : User) : Store × Option String :=
  if isBlank u.username then (s, some "unsupported username")
  else
    let res := s.addSubscription u.subscription
    let sid := res.1
    let s1 := res.2
    if s1.isUserExists u.username then
      (s1, some "failed to execute insert statement: UNIQUE constraint failed: users.username")
    else
      ({ s1 with users := s1.users ++ [⟨u.username, sid, 0, u.chatID⟩] }, none)

/-- Embeds `Database.User` (db.go): the users ⋈ subscriptions join on the username,
with the stored DATE strings parsed back via `parseTime`.  `none` models the
`sql.ErrNoRows` outcome. -/
def Store.getUser (s : Store) (username : String) : Option User :=
  match s.findUser username with
  | none => none
  | some ur =>
    match s.findSub ur.subscriptionId with
    | none => none
    | some sr =>
      some ⟨ur.username,
            ⟨sr.id, sr.subscriptionStatus, sr.duration,
             parseTime sr.startSubscription, parseTime sr.endSubscription⟩,
            ur.traffic, ur.chatId⟩

/-- Embeds `Database.UpdateUserSubscription` (db.go): not-found check, then UPDATE
of the four subscription fields of the row the user references. -/
def Store.updateUserSubscription (s : Store) (username : String) (newSub : Subscription) :
    Store × Option String :=
  match s.findUser username with
  | none => (s, some ("user " ++ username ++ " not found"))
  | some ur =>
    ({ s with subs := s.subs.map (fun r =>
        if r.id == ur.subscriptionId then
          { r with subscriptionStatus := newSub.subscriptionStatus,
                   duration := newSub.duration,
                   startSubscription := FormatTime newSub.startSubscription,
                   endSubscription := FormatTime newSub.endSubscription }
        else r) }, none)

/-- Embeds `Database.DeleteUser` (db.go): reads the user's subscription id (error
`user … not found` on absence, leaving the store untouched), deletes the
user row, then runs `deleteSubscriptionIfUnusedSQL`: delete the subscription
row iff no remaining user references it. -/
def Store.deleteUser (s : Store) (username : String) : Store × Option String :=
  match s.findUser username with
  | none => (s, some ("user " ++ username ++ " not found"))
  | some ur =>
    let users' := s.users.filter (fun r => !(r.username == username))
    let subs' := s.subs.filter (fun r =>
      !(r.id == ur.subscriptionId && !(users'.any (fun w => w.subscriptionId == ur.subscriptionId))))
    ({ s with users := users', subs := subs' }, none)

/-- The row transformation of `updateUserTrafficSQL`:
`UPDATE users SET traffic = ? WHERE username = ?`. -/
def updateTrafficRows (username : String) (traffic : Rat) (us : List UserRow) : List UserRow :=
  us.map (fun r => if r.username == username then { r with traffic := traffic } else r)

/-- Embeds `Database.UpdateUserTraffic` (db.go): the UPDATE above, no existence
check; affecting zero rows is not an error. -/
def Store.updateUserTraffic (s : Store) (username : String) (traffic : Rat) :
    Store × Option String :=
  ({ s with users := updateTrafficRows username traffic s.users }, none)

/-- Embeds `Database.ResetUserTraffic` (db.go). -/
def Store.resetUserTraffic (s : Store) (username : String) : Store × Option String :=
  s.updateUserTraffic username 0

/-- Embeds `Database.AllUsername` (db.go): `SELECT username FROM users`. -/
def Store.allUsername (s : Store) : List String :=
  s.users.map (fun r => r.username)

/-- Observed traffic of a user (the `traffic` column of their row). -/
def Store.getTraffic (s : Store) (username : String) : Option Rat :=
  (s.findUser username).map (fun r => r.traffic)

/-- Well-formedness maintained by the AUTOINCREMENT counter: every stored
subscription id is below the next id to be allocated. -/
def Store.WF (s : Store) : Prop :=
  ∀ r ∈ s.subs, r.id < s.nextSubId

/-! ## Subscription lifecycle engine (checkSubscriptions.go) -/

/-- The per-user body of `checkAndUpdateSubscriptions` at a fixed instant
`now`: the two sequential `if`s over the in-memory subscription.  Returns
the final in-memory subscription together with the list of subscription
values passed to `UpdateUserSubscription` (one per fired branch). -/
def lifecycleStep (now : GoTime) (sub : Subscription) : Subscription × List Subscription :=
  let fired1 := sub.subscriptionStatus == "inactive" && sub.endSubscription.after now
  let sub1 := if fired1 then { sub with subscriptionStatus := "active" } else sub
  let fired2 := sub1.subscriptionStatus == "active" && sub1.endSubscription.before now
  let sub2 :=
    if fired2 then { sub1 with subscriptionStatus := "inactive", endSubscription := GoTime.zero }
    else sub1
  (sub2, (if fired1 then [sub1] else []) ++ (if fired2 then [sub2] else []))

/-- The transition applied to a user's subscription by one engine run. -/
def lifecycleBody (now : GoTime) (sub : Subscription) : Subscription :=
  (lifecycleStep now sub).1

/-- The transition function as the specification words it: if `status`
is inactive and `endDate > now` then activate; else if `status` is active
and `endDate < now` then deactivate and reset `endDate` to the zero value;
otherwise (in particular when `endDate = now`) leave the record unchanged. -/
def claimTransition (now : GoTime) (sub : Subscription) : Subscription :=
  if sub.subscriptionStatus = "inactive" ∧ now.instant < sub.endSubscription.instant then
    { sub with subscriptionStatus := "active" }
  else if sub.subscriptionStatus = "active" ∧ sub.endSubscription.instant < now.instant then
    { sub with subscriptionStatus := "inactive", endSubscription := GoTime.zero }
  else sub

/-- Embeds `checkAndUpdateSubscriptions` (checkSubscriptions.go) on a username
list, with the per-user fetch (`s.db.User`) given as an oracle.  When a
fetch returns an error the code only logs it and then dereferences the nil
`user` pointer, so the whole run panics: modelled as `none`.  A failing
`UpdateUserSubscription` is logged and ignored, leaving control flow
unchanged, so persistence errors do not appear in the model.  On a
non-panicking run the result is the list of `(username, subscription)`
arguments passed to `UpdateUserSubscription`. -/
def checkAndUpdateSubscriptions (fetch : String → Option User) (now : GoTime) :
    List String → Option (List (String × Subscription))
  | [] => some []
  | u :: rest =>
    match fetch u with
    | none => none
    | some usr =>
      match checkAndUpdateSubscriptions fetch now rest with
      | none => none
      | some l =>
        some (((lifecycleStep now usr.subscription).2.map (fun sb => (u, sb))) ++ l)

/-! ## Traffic reset engine (checkSubscriptions.go) -/

/-- The components of a Go `time.Time` that `checkAndResetTraffic` reads:
calendar fields down to seconds (`time.Date(Y, M, D, h, m, 0, 0, Local)`
zeroes the second and nanosecond fields). -/
structure SchedTime where
  year : Int
  month : Int
  day : Int
  hour : Int
  minute : Int
  second : Int
deriving DecidableEq, Repr

/-- Embeds `newResetTime` (checkSubscriptions.go line 69): `time.Date(now.Year(),
now.Month(), now.Day(), now.Hour(), now.Minute(), 0, 0, time.Local)` —
the current timestamp truncated to the minute. -/
def newResetTime (now : SchedTime) : SchedTime := { now with second := 0 }

/-- State the traffic-reset engine touches: the checkpoint file
`docs/last_reset_time.txt` content and the store. -/
structure SchedState where
  lastResetFile : SchedTime
  store : Store
deriving DecidableEq, Repr

/-- Embeds `resetAllUserTraffic` (checkSubscriptions.go): `ResetUserTraffic` for
each name returned by `AllUsername` (per-user errors are logged and do not
change behaviour on the pure store). -/
def resetAllUserTraffic (s : Store) : Store :=
  (s.allUsername).foldl (fun acc u => (acc.resetUserTraffic u).1) s

/-- Embeds `checkAndResetTraffic` (checkSubscriptions.go) with explicit checkpoint
I/O outcomes.  A failing checkpoint read (`LastResetTimeFromFile`) is
logged and the function returns before touching any traffic.  Otherwise,
when the checkpoint's (year, month) differs from now's, all traffic is
reset and the checkpoint write (`UpdateLastResetTimeInFile`) is attempted;
a failing write is only logged, leaving the old checkpoint in place while
the resets stay committed. -/
def checkAndResetTrafficF (readOk writeOk : Bool) (now : SchedTime) (st : SchedState) :
    SchedState :=
  if !readOk then st
  else if st.lastResetFile.year ≠ now.year ∨ st.lastResetFile.month ≠ now.month then
    let store' := resetAllUserTraffic st.store
    if writeOk then { lastResetFile := newResetTime now, store := store' }
    else { st with store := store' }
  else st

/-- Embeds `checkAndResetTraffic` on a run whose checkpoint I/O succeeds. -/
def checkAndResetTraffic (now : SchedTime) (st : SchedState) : SchedState :=
  checkAndResetTrafficF true true now st

/-! ## Helper lemmas -/

lemma isUserExists_false_iff (s : Store) (name : String) :
    s.isUserExists name = false ↔ s.findUser name = none := by
  simp [Store.isUserExists, Store.findUser, List.any_eq_false, List.find?_eq_none]

lemma updateTrafficRows_pred (who name : String) (v : Rat) (r : UserRow) :
    ((if r.username == who then { r with traffic := v } else r).username == name)
      = (r.username == name) := by
  by_cases h : r.username == who <;> simp [h]

lemma findUser_updateTrafficRows (s : Store) (name who : String) (v : Rat) :
    (s.updateUserTraffic who v).1.findUser name
      = (s.findUser name).map
          (fun r => if r.username == who then { r with traffic := v } else r) := by
  show (updateTrafficRows who v s.users).find? _ = _
  unfold updateTrafficRows Store.findUser
  rw [List.find?_map]
  have hp : ((fun r : UserRow => r.username == name) ∘
      fun r => if r.username == who then { r with traffic := v } else r)
      = (fun r : UserRow => r.username == name) := by
    funext r
    exact updateTrafficRows_pred who name v r
  rw [hp]

/-- An existing user's traffic after `updateUserTraffic` on that user is
exactly the written value. -/
lemma updateTraffic_sets_exact (s : Store) (name : String) (v : Rat)
    (h : s.isUserExists name = true) :
    (s.updateUserTraffic name v).1.getTraffic name = some v := by
  obtain ⟨r, hmem, hp⟩ := List.any_eq_true.mp h
  have hsome : (s.findUser name).isSome :=
    List.find?_isSome.mpr ⟨r, hmem, hp⟩
  obtain ⟨r0, hr0⟩ := Option.isSome_iff_exists.mp hsome
  have hr0' : s.users.find? (fun r => r.username == name) = some r0 := hr0
  have hp0 := List.find?_some hr0'
  unfold Store.getTraffic
  rw [findUser_updateTrafficRows, hr0]
  have heq : r0.username = name := by simpa using hp0
  simp [heq]

/-! ## Claim theorems -/

/-- Concrete example store with a single user `a` (traffic 5). -/
def sEx : Store :=
  { users := [⟨"a", 1, 5, 10⟩],
    subs := [⟨1, "active", "month", 100, 200⟩],
    nextSubId := 2 }

/-- C3: one lifecycle-engine run applies to every user's subscription
exactly the claimed transition function: inactive with `endDate > now`
becomes active; else active with `endDate < now` becomes inactive with the
end date reset to the zero value; when `endDate` equals `now` neither
branch fires, no update is issued, and the record is unchanged. -/
theorem claim3_lifecycle_transition :
    (∀ now sub, lifecycleBody now sub = claimTransition now sub) ∧
    (∀ now sub, sub.endSubscription.instant = now.instant →
      lifecycleStep now sub = (sub, [])) := by
  constructor
  · intro now sub
    unfold lifecycleBody lifecycleStep claimTransition GoTime.after GoTime.before
    by_cases h1 : sub.subscriptionStatus = "inactive"
    · by_cases h2 : now.instant < sub.endSubscription.instant
      · have h4 : ¬ sub.endSubscription.instant < now.instant := by omega
        simp [h1, h2, h4]
      · simp [h1, h2]
    · by_cases h3 : sub.subscriptionStatus = "active"
      · by_cases h4 : sub.endSubscription.instant < now.instant
        · simp [h1, h3, h4]
        · simp [h1, h3, h4]
      · simp [h1, h3]
  · intro now sub h
    unfold lifecycleStep GoTime.after GoTime.before
    have h2 : ¬ now.instant < sub.endSubscription.instant := by omega
    have h4 : ¬ sub.endSubscription.instant < now.instant := by omega
    by_cases h1 : sub.subscriptionStatus = "inactive"
    · simp [h1, h2, h4]
    · simp [h1, h2, h4]

/-- Witness for C3 at concrete inputs, with the boundary hypothesis
`endDate = now` discharged. -/
theorem claim3_witness :
    lifecycleBody ⟨50, 0⟩ ⟨1, "active", "month", ⟨0, 0⟩, ⟨100, 0⟩⟩
      = claimTransition ⟨50, 0⟩ ⟨1, "active", "month", ⟨0, 0⟩, ⟨100, 0⟩⟩ ∧
    lifecycleStep ⟨100, 0⟩ ⟨1, "active", "month", ⟨0, 0⟩, ⟨100, 0⟩⟩
      = (⟨1, "active", "month", ⟨0, 0⟩, ⟨100, 0⟩⟩, []) :=
  ⟨claim3_lifecycle_transition.1 ⟨50, 0⟩ ⟨1, "active", "month", ⟨0, 0⟩, ⟨100, 0⟩⟩,
   claim3_lifecycle_transition.2 ⟨100, 0⟩ ⟨1, "active", "month", ⟨0, 0⟩, ⟨100, 0⟩⟩ rfl⟩

/-- A fetch oracle that fails for user `a` and succeeds for everyone
else: `s.db.User` returns a non-nil error (and a nil user) for `a`. -/
def fetchFailA : String → Option User :=
  fun u => if u = "a" then none else some ⟨"b", ⟨1, "active", "month", ⟨0, 0⟩, ⟨100, 0⟩⟩, 0, 2⟩

/-- C2 (code bug): in `checkAndUpdateSubscriptions`, a failed per-user
fetch is logged but not skipped — the nil `user` pointer is then
dereferenced, so the run panics (`none`) and the remaining users are never
evaluated, although the same run restricted to the remaining users would
have completed. -/
theorem claim2_fetch_failure_aborts_run :
    checkAndUpdateSubscriptions fetchFailA ⟨50, 0⟩ ["a", "b"] = none ∧
    checkAndUpdateSubscriptions fetchFailA ⟨50, 0⟩ ["b"] = some [] := by
  constructor <;> rfl

/-- C10: deleting a username that is not in the store returns the
`user … not found` error and leaves the store (both tables) completely
unchanged. -/
theorem claim10_delete_missing_user :
    ∀ (s : Store) (name : String), s.isUserExists name = false →
      s.deleteUser name = (s, some ("user " ++ name ++ " not found")) := by
  intro s name h
  have hf : s.findUser name = none := (isUserExists_false_iff s name).mp h
  unfold Store.deleteUser
  rw [hf]

/-- Witness for C10 at a concrete store and missing username. -/
theorem claim10_witness :
    sEx.deleteUser "zz" = (sEx, some ("user " ++ "zz" ++ " not found")) :=
  claim10_delete_missing_user sEx "zz" (by decide)

/-- C8: `UpdateUserTraffic` never errors; when the user does not exist it
leaves the store unchanged; when the user exists it replaces the traffic
value with exactly the given one; and `ResetUserTraffic` is definitionally
`UpdateUserTraffic` with value 0. -/
theorem claim8_update_traffic :
    ∀ (s : Store) (name : String) (v : Rat),
      ((s.updateUserTraffic name v).2 = none) ∧
      (s.isUserExists name = false → (s.updateUserTraffic name v).1 = s) ∧
      (s.isUserExists name = true →
        (s.updateUserTraffic name v).1.getTraffic name = some v) ∧
      (s.resetUserTraffic name = s.updateUserTraffic name 0) := by
  intro s name v
  refine ⟨rfl, ?_, ?_, rfl⟩
  · intro h
    have hall : ∀ r ∈ s.users, ¬ (r.username == name) = true := by
      simpa [Store.isUserExists] using h
    show ({ s with users := updateTrafficRows name v s.users } : Store) = s
    have : updateTrafficRows name v s.users = s.users := by
      unfold updateTrafficRows
      calc s.users.map (fun r => if r.username == name then { r with traffic := v } else r)
          = s.users.map id := by
            apply List.map_congr_left
            intro r hr
            simp [hall r hr]
      _ = s.users := List.map_id s.users
    rw [this]
  · exact updateTraffic_sets_exact s name v

/-- Witness for C8: both the missing-user and the existing-user branch at
a concrete store. -/
theorem claim8_witness :
    ((sEx.updateUserTraffic "zz" 7).1 = sEx) ∧
    ((sEx.updateUserTraffic "a" 7).1.getTraffic "a" = some 7) :=
  ⟨(claim8_update_traffic sEx "zz" 7).2.1 (by decide),
   (claim8_update_traffic sEx "a" 7).2.2.1 (by decide)⟩

/-- C9 counterexample: user `a` has traffic 5; `UpdateUserTraffic` with
value 3 — a store operation that is not a reset — succeeds and lowers the
traffic to 3, so traffic is not monotonically non-decreasing between
resets. -/
theorem claim9_counterexample :
    (sEx.updateUserTraffic "a" 3).2 = none ∧
    sEx.getTraffic "a" = some 5 ∧
    (sEx.updateUserTraffic "a" 3).1.getTraffic "a" = some 3 ∧
    ((3 : Rat) < 5) ∧ ((3 : Rat) ≠ 0) := by
  refine ⟨rfl, rfl, rfl, by norm_num, by norm_num⟩

/-- Shared characterization of `createUser` on a blank username. -/
lemma createUser_blank (s : Store) (u : User) (h : isBlank u.username = true) :
    s.createUser u = (s, some "unsupported username") := by
  unfold Store.createUser
  rw [h]
  rfl

/-- Shared characterization of `createUser` on a fresh valid username:
both rows are inserted and no error is returned. -/
lemma createUser_fresh (s : Store) (u : User) (h : isBlank u.username = false)
    (he : s.isUserExists u.username = false) :
    s.createUser u =
      ({ users := s.users ++ [⟨u.username, s.nextSubId, 0, u.chatID⟩],
         subs := s.subs ++ [subRowOf s.nextSubId u.subscription],
         nextSubId := s.nextSubId + 1 }, none) := by
  have he2 : (s.users.any (fun r => r.username == u.username)) = false := he
  unfold Store.createUser Store.addSubscription Store.isUserExists
  rw [h]
  simp only [Bool.false_eq_true, if_false, he2]

/-- Shared characterization of `createUser` on a duplicate username: the
user insert fails, but the subscription row inserted just before it stays
in the table (no transaction unwinds it). -/
lemma createUser_dup (s : Store) (u : User) (h : isBlank u.username = false)
    (he : s.isUserExists u.username = true) :
    s.createUser u =
      ({ s with subs := s.subs ++ [subRowOf s.nextSubId u.subscription],
                nextSubId := s.nextSubId + 1 },
       some "failed to execute insert statement: UNIQUE constraint failed: users.username") := by
  have he2 : (s.users.any (fun r => r.username == u.username)) = true := he
  unfold Store.createUser Store.addSubscription Store.isUserExists
  rw [h]
  simp only [Bool.false_eq_true, if_false, he2]
  rfl

/-- The user whose creation collides with the existing user `a` of
`sEx`. -/
def uDup : User := ⟨"a", ⟨0, "inactive", "month", ⟨100, 0⟩, ⟨200, 0⟩⟩, 0, 10⟩

/-- C1 counterexample: creating a user whose username already exists
fails, yet the subscription row inserted by that call (id 2) persists with
no user row referencing it — the operation is not atomic and the orphan
outlives the failed call. -/
theorem claim1_counterexample :
    ((sEx.createUser uDup).2).isSome = true ∧
    (sEx.createUser uDup).1.users = sEx.users ∧
    (sEx.createUser uDup).1.subs.any (fun r => r.id == 2) = true ∧
    (sEx.createUser uDup).1.users.any (fun r => r.subscriptionId == 2) = false := by
  refine ⟨rfl, rfl, rfl, rfl⟩

/-- C1 amended: `CreateUser` inserts the subscription row first and the
user row second, with no transaction.  A blank username leaves the store
unchanged; on a fresh username both rows are inserted; but when the user
insert fails because the username exists, the freshly inserted
subscription row persists with no referencing user. -/
theorem claim1_amended :
    ∀ (s : Store) (u : User),
      (isBlank u.username = true → s.createUser u = (s, some "unsupported username")) ∧
      (isBlank u.username = false → s.isUserExists u.username = false →
        s.createUser u =
          ({ users := s.users ++ [⟨u.username, s.nextSubId, 0, u.chatID⟩],
             subs := s.subs ++ [subRowOf s.nextSubId u.subscription],
             nextSubId := s.nextSubId + 1 }, none)) ∧
      (isBlank u.username = false → s.isUserExists u.username = true →
        s.createUser u =
          ({ s with subs := s.subs ++ [subRowOf s.nextSubId u.subscription],
                    nextSubId := s.nextSubId + 1 },
           some "failed to execute insert statement: UNIQUE constraint failed: users.username")) :=
  fun s u =>
    ⟨createUser_blank s u, createUser_fresh s u, createUser_dup s u⟩

/-- Witness for C1 (amended) exercising all three branches at concrete
inputs. -/
theorem claim1_witness :
    (sEx.createUser ⟨" ", ⟨0, "inactive", "month", ⟨0, 0⟩, ⟨0, 0⟩⟩, 0, 1⟩
        = (sEx, some "unsupported username")) ∧
    (sEx.createUser ⟨"c", ⟨0, "inactive", "month", ⟨0, 0⟩, ⟨0, 0⟩⟩, 0, 1⟩
        = ({ users := sEx.users ++ [⟨"c", sEx.nextSubId, 0, 1⟩],
             subs := sEx.subs ++ [subRowOf sEx.nextSubId ⟨0, "inactive", "month", ⟨0, 0⟩, ⟨0, 0⟩⟩],
             nextSubId := sEx.nextSubId + 1 }, none)) ∧
    (sEx.createUser uDup
        = ({ sEx with subs := sEx.subs ++ [subRowOf sEx.nextSubId uDup.subscription],
                      nextSubId := sEx.nextSubId + 1 },
           some "failed to execute insert statement: UNIQUE constraint failed: users.username")) :=
  ⟨(claim1_amended sEx ⟨" ", ⟨0, "inactive", "month", ⟨0, 0⟩, ⟨0, 0⟩⟩, 0, 1⟩).1 (by decide),
   (claim1_amended sEx ⟨"c", ⟨0, "inactive", "month", ⟨0, 0⟩, ⟨0, 0⟩⟩, 0, 1⟩).2.1
     (by decide) (by decide),
   (claim1_amended sEx uDup).2.2 (by decide) (by decide)⟩

/-- Embeds `updateUserSubscription` never touches the `users` table. -/
lemma updateUserSubscription_users (s : Store) (who : String) (sub : Subscription) :
    (s.updateUserSubscription who sub).1.users = s.users := by
  unfold Store.updateUserSubscription
  cases s.findUser who <;> rfl

/-- C9 amended: the store does not enforce monotonicity of `traffic`.
The only store operation that changes an existing user's traffic is
`UpdateUserTraffic` (with `ResetUserTraffic` being `UpdateUserTraffic 0`),
and it replaces the value with exactly the given one — which may be lower
than the current value.  `UpdateUserSubscription`, `CreateUser`, and
`UpdateUserTraffic` on a different username all leave an existing user's
traffic unchanged. -/
theorem claim9_amended :
    ∀ (s : Store) (name who : String) (t : Rat) (u : User) (sub : Subscription) (v : Rat),
      (s.getTraffic name = some t →
        ((s.updateUserSubscription who sub).1.getTraffic name = some t) ∧
        ((s.createUser u).1.getTraffic name = some t) ∧
        (who ≠ name → (s.updateUserTraffic who v).1.getTraffic name = some t)) ∧
      (s.isUserExists name = true →
        (s.updateUserTraffic name v).1.getTraffic name = some v) ∧
      (s.resetUserTraffic name = s.updateUserTraffic name 0) := by
  intro s name who t u sub v
  refine ⟨?_, ?_, rfl⟩
  · intro hg
    obtain ⟨r, hr, hrt⟩ := Option.map_eq_some'.mp hg
    refine ⟨?_, ?_, ?_⟩
    · unfold Store.getTraffic Store.findUser
      rw [updateUserSubscription_users]
      exact hg
    · by_cases hb : isBlank u.username
      · rw [createUser_blank s u hb]
        exact hg
      · have hb' : isBlank u.username = false := by simpa using hb
        by_cases he : s.isUserExists u.username
        · rw [createUser_dup s u hb' he]
          exact hg
        · have he' : s.isUserExists u.username = false := by simpa using he
          rw [createUser_fresh s u hb' he']
          unfold Store.getTraffic Store.findUser at hg ⊢
          rw [List.find?_append]
          rw [Option.map_eq_some'] at hg
          obtain ⟨r0, hr0, hrt0⟩ := hg
          rw [hr0]
          simp [hrt0]
    · intro hwho
      unfold Store.getTraffic
      rw [findUser_updateTrafficRows, hr]
      have hname : r.username = name := by
        have := List.find?_some hr
        simpa using this
      have hne : r.username ≠ who := by
        rw [hname]
        exact fun hc => hwho hc.symm
      simp [hne, hrt]
  · exact updateTraffic_sets_exact s name v

/-- Witness for C9 (amended): traffic preservation under a subscription
update and a foreign traffic update, and exact replacement, at a concrete
store. -/
theorem claim9_witness :
    ((sEx.updateUserSubscription "a" ⟨0, "inactive", "year", ⟨1, 0⟩, ⟨2, 0⟩⟩).1.getTraffic "a"
        = some 5) ∧
    ((sEx.updateUserTraffic "zz" 9).1.getTraffic "a" = some 5) ∧
    ((sEx.updateUserTraffic "a" 3).1.getTraffic "a" = some 3) :=
  ⟨((claim9_amended sEx "a" "a" 5 uDup ⟨0, "inactive", "year", ⟨1, 0⟩, ⟨2, 0⟩⟩ 3).1 rfl).1,
   (((claim9_amended sEx "a" "zz" 5 uDup ⟨0, "inactive", "year", ⟨1, 0⟩, ⟨2, 0⟩⟩ 9).1 rfl).2.2
      (by decide)),
   ((claim9_amended sEx "a" "zz" 5 uDup ⟨0, "inactive", "year", ⟨1, 0⟩, ⟨2, 0⟩⟩ 3).2.1 rfl)⟩

/-- The empty store, as `NewDatabase` initializes it. -/
def emptyStore : Store := ⟨[], [], 1⟩

/-- A creation input with nonzero traffic and a non-UTC (+03:00) end
timestamp. -/
def uBob : User := ⟨"bob", ⟨0, "active", "month", ⟨100, 0⟩, ⟨200, 10800⟩⟩, 50, 9⟩

/-- C6 counterexample: `CreateUser` followed by `GetUser` does not return
the input fields.  The input traffic 50 comes back as 0 (the insert never
writes the traffic column), and the +03:00 end timestamp comes back with
its wall-clock reading restamped as UTC — a different field value and a
different instant. -/
theorem claim6_counterexample :
    ((emptyStore.createUser uBob).2 = none) ∧
    (((emptyStore.createUser uBob).1.getUser "bob").map (fun x => x.traffic) = some 0) ∧
    (uBob.traffic = 50) ∧ ¬((0 : Rat) = 50) ∧
    (((emptyStore.createUser uBob).1.getUser "bob").map
        (fun x => x.subscription.endSubscription) = some ⟨200, 0⟩) ∧
    (uBob.subscription.endSubscription = ⟨200, 10800⟩) ∧
    ¬(GoTime.instant ⟨200, 0⟩ = GoTime.instant ⟨200, 10800⟩) := by
  refine ⟨rfl, rfl, rfl, by norm_num, rfl, rfl, by decide⟩

/-- C6 amended: on a well-formed store, creating a fresh valid user and
reading it back returns the input username, chatID, subscription status
and duration (and the server-assigned id), but the traffic is always 0
regardless of the input, and the timestamps are the input wall-clock
readings restamped as UTC — they equal the input only when the input
offsets are zero. -/
theorem claim6_amended :
    ∀ (s : Store) (u : User), s.WF → isBlank u.username = false →
      s.isUserExists u.username = false →
      ((s.createUser u).2 = none) ∧
      ((s.createUser u).1.getUser u.username =
        some ⟨u.username,
              ⟨s.nextSubId, u.subscription.subscriptionStatus, u.subscription.duration,
               ⟨u.subscription.startSubscription.wall, 0⟩,
               ⟨u.subscription.endSubscription.wall, 0⟩⟩,
              0, u.chatID⟩) := by
  intro s u hwf hb he
  rw [createUser_fresh s u hb he]
  refine ⟨rfl, ?_⟩
  have hnone : s.users.find? (fun r => r.username == u.username) = none := by
    rw [List.find?_eq_none]
    intro x hx
    exact (List.any_eq_false.mp he) x hx
  have hsubnone : s.subs.find? (fun r => r.id == s.nextSubId) = none := by
    rw [List.find?_eq_none]
    intro x hx
    have hlt := hwf x hx
    simp only [beq_iff_eq]
    omega
  unfold Store.getUser Store.findUser Store.findSub
  simp [List.find?_append, hnone, hsubnone, subRowOf, parseTime, FormatTime]

/-- Witness for C6 (amended) at the empty store and a fresh user. -/
theorem claim6_witness :
    ((emptyStore.createUser uBob).2 = none) ∧
    ((emptyStore.createUser uBob).1.getUser "bob" =
      some ⟨"bob", ⟨1, "active", "month", ⟨100, 0⟩, ⟨200, 0⟩⟩, 0, 9⟩) :=
  claim6_amended emptyStore uBob (by intro r hr; simp [emptyStore] at hr) (by decide) (by decide)

/-- C7: deleting an existing user always removes the user row and then
runs the orphan check: a subscription row survives the call iff it is not
the deleted user's subscription or some remaining user still references
that subscription; nothing else is removed and nothing is added. -/
theorem claim7_delete_user :
    ∀ (s : Store) (name : String) (ur : UserRow), s.findUser name = some ur →
      ((s.deleteUser name).2 = none) ∧
      ((s.deleteUser name).1.users = s.users.filter (fun w => !(w.username == name))) ∧
      ((s.deleteUser name).1.nextSubId = s.nextSubId) ∧
      (∀ q ∈ s.subs,
        (q ∈ (s.deleteUser name).1.subs ↔
          (¬(q.id = ur.subscriptionId) ∨
            ∃ w ∈ (s.deleteUser name).1.users, w.subscriptionId = ur.subscriptionId))) ∧
      (∀ q, q ∈ (s.deleteUser name).1.subs → q ∈ s.subs) := by
  intro s name ur h
  unfold Store.deleteUser
  rw [h]
  refine ⟨rfl, rfl, rfl, ?_, ?_⟩
  · intro q hq
    rw [List.mem_filter]
    simp only [hq, true_and, Bool.not_eq_true']
    constructor
    · intro hp
      by_cases hid : q.id = ur.subscriptionId
      · right
        simp only [hid, beq_self_eq_true, Bool.true_and, Bool.not_eq_false'] at hp
        obtain ⟨w, hw1, hw2⟩ := List.any_eq_true.mp hp
        exact ⟨w, hw1, by simpa using hw2⟩
      · exact Or.inl hid
    · intro hp
      rcases hp with hid | ⟨w, hw1, hw2⟩
      · simp [hid]
      · have hany : ((s.users.filter (fun r => !(r.username == name))).any
            (fun w => w.subscriptionId == ur.subscriptionId)) = true :=
          List.any_eq_true.mpr ⟨w, hw1, by simpa using hw2⟩
        simp [hany]
  · intro q hq
    exact (List.mem_filter.mp hq).1

/-- Witness for C7 at a concrete store: the single user `a` is deleted
and the orphan check removes its now-unreferenced subscription. -/
theorem claim7_witness :
    ((sEx.deleteUser "a").2 = none) ∧
    ((sEx.deleteUser "a").1.users = sEx.users.filter (fun w => !(w.username == "a"))) :=
  ⟨(claim7_delete_user sEx "a" ⟨"a", 1, 5, 10⟩ rfl).1,
   (claim7_delete_user sEx "a" ⟨"a", 1, 5, 10⟩ rfl).2.1⟩

/-- The reset fold touches only the `users` table, applying the traffic
UPDATE once per folded username. -/
lemma resetFold_users (L : List String) (t : Store) :
    L.foldl (fun acc u => (acc.resetUserTraffic u).1) t
      = { t with users := L.foldl (fun us u => updateTrafficRows u 0 us) t.users } := by
  induction L generalizing t with
  | nil => rfl
  | cons u L ih =>
    simp only [List.foldl_cons]
    rw [ih]
    rfl

/-- Folding the traffic UPDATE over a list of names zeroes exactly the
rows whose username occurs in the list. -/
lemma foldl_updateRows (L : List String) (us : List UserRow) :
    L.foldl (fun acc u => updateTrafficRows u 0 acc) us
      = us.map (fun r => if r.username ∈ L then { r with traffic := 0 } else r) := by
  induction L generalizing us with
  | nil =>
    simp only [List.foldl_nil, List.not_mem_nil, if_false]
    exact (List.map_id us).symm
  | cons u L ih =>
    simp only [List.foldl_cons]
    rw [ih]
    unfold updateTrafficRows
    rw [List.map_map]
    apply List.map_congr_left
    intro r hr
    by_cases h : r.username = u
    · by_cases h2 : r.username ∈ L <;> simp [Function.comp, h, h2]
    · by_cases h2 : r.username ∈ L <;> simp [Function.comp, h, h2]

/-- Embeds `resetAllUserTraffic` zeroes the traffic of every user row and changes
nothing else. -/
lemma resetAll_spec (s : Store) :
    resetAllUserTraffic s
      = { s with users := s.users.map (fun r => { r with traffic := 0 }) } := by
  unfold resetAllUserTraffic
  rw [resetFold_users, foldl_updateRows]
  have husers : s.users.map (fun r => if r.username ∈ s.allUsername
        then { r with traffic := 0 } else r)
      = s.users.map (fun r => { r with traffic := 0 }) := by
    apply List.map_congr_left
    intro r hr
    have hm : r.username ∈ s.allUsername := List.mem_map.mpr ⟨r, hr, rfl⟩
    simp [hm]
  rw [husers]

/-- A run whose checkpoint already carries now's (year, month) changes
nothing. -/
lemma checkAndResetTraffic_noop (now : SchedTime) (st : SchedState)
    (hy : st.lastResetFile.year = now.year) (hm : st.lastResetFile.month = now.month) :
    checkAndResetTraffic now st = st := by
  unfold checkAndResetTraffic checkAndResetTrafficF
  have hcond : ¬(st.lastResetFile.year ≠ now.year ∨ st.lastResetFile.month ≠ now.month) := by
    push_neg
    exact ⟨hy, hm⟩
  rw [if_neg (by simp), if_neg hcond]

/-- After any run, the checkpoint either kept its value (and already
matched now's year and month) or was overwritten with the truncated
current timestamp. -/
lemma checkAndResetTraffic_cp (now : SchedTime) (st : SchedState) :
    (((checkAndResetTraffic now st).lastResetFile = st.lastResetFile) ∧
      st.lastResetFile.year = now.year ∧ st.lastResetFile.month = now.month) ∨
    ((checkAndResetTraffic now st).lastResetFile = newResetTime now) := by
  unfold checkAndResetTraffic checkAndResetTrafficF
  by_cases h : st.lastResetFile.year ≠ now.year ∨ st.lastResetFile.month ≠ now.month
  · right
    rw [if_neg (by simp), if_pos h]
    rfl
  · left
    rw [if_neg (by simp), if_neg h]
    push_neg at h
    exact ⟨rfl, h⟩

/-- C4: a traffic-reset invocation whose checkpoint (year, month) matches
now's is a no-op on both the store and the checkpoint; when they differ,
every user row's traffic is reset to 0 and the checkpoint becomes the
current timestamp (truncated to the minute by `time.Date(…, 0, 0, Local)`);
consequently a second invocation in the same calendar month as the first
changes nothing more. -/
theorem claim4_traffic_reset :
    ∀ (now : SchedTime) (st : SchedState),
      ((st.lastResetFile.year = now.year ∧ st.lastResetFile.month = now.month) →
        checkAndResetTraffic now st = st) ∧
      ((st.lastResetFile.year ≠ now.year ∨ st.lastResetFile.month ≠ now.month) →
        ((checkAndResetTraffic now st).store.users
            = st.store.users.map (fun r => { r with traffic := 0 })) ∧
        ((checkAndResetTraffic now st).lastResetFile = newResetTime now)) ∧
      (∀ now2, now2.year = now.year → now2.month = now.month →
        checkAndResetTraffic now2 (checkAndResetTraffic now st)
          = checkAndResetTraffic now st) := by
  intro now st
  refine ⟨?_, ?_, ?_⟩
  · intro h
    exact checkAndResetTraffic_noop now st h.1 h.2
  · intro h
    unfold checkAndResetTraffic checkAndResetTrafficF
    rw [if_neg (by simp), if_pos h]
    simp [resetAll_spec]
  · intro now2 hy hm
    rcases checkAndResetTraffic_cp now st with ⟨hcp, hcy, hcm⟩ | hcp
    · refine checkAndResetTraffic_noop now2 _ ?_ ?_
      · rw [hcp, hcy]
        exact hy.symm
      · rw [hcp, hcm]
        exact hm.symm
    · refine checkAndResetTraffic_noop now2 _ ?_ ?_
      · rw [hcp]
        exact hy.symm
      · rw [hcp]
        exact hm.symm

/-- Example checkpoint and clock values: checkpoint in December 2025, the
current run in January 2026, and a same-month pair. -/
def cpDec : SchedTime := ⟨2025, 12, 31, 23, 50, 7⟩

def nowJan : SchedTime := ⟨2026, 1, 5, 3, 4, 9⟩

def stDiff : SchedState := ⟨cpDec, sEx⟩

def stSame : SchedState := ⟨⟨2026, 1, 1, 0, 0, 0⟩, sEx⟩

/-- Witness for C4: the same-month no-op, the cross-month reset, and the
idempotence of a second same-month invocation, at concrete states. -/
theorem claim4_witness :
    (checkAndResetTraffic nowJan stSame = stSame) ∧
    ((checkAndResetTraffic nowJan stDiff).store.users
        = stDiff.store.users.map (fun r => { r with traffic := 0 })) ∧
    (checkAndResetTraffic nowJan (checkAndResetTraffic nowJan stDiff)
        = checkAndResetTraffic nowJan stDiff) :=
  ⟨(claim4_traffic_reset nowJan stSame).1 ⟨rfl, rfl⟩,
   ((claim4_traffic_reset nowJan stDiff).2.1 (Or.inr (by decide))).1,
   (claim4_traffic_reset nowJan stDiff).2.2 nowJan rfl rfl⟩

/-- C5 counterexample: with a stale (December) checkpoint and a failing
checkpoint write, the January run resets the user's traffic from 5 to 0
and leaves the checkpoint un-advanced — a committed reset with no
checkpoint update, contradicting the claim. -/
theorem claim5_counterexample :
    ((checkAndResetTrafficF true false nowJan stDiff).store.users.map (fun r => r.traffic)
        = [0]) ∧
    (stDiff.store.users.map (fun r => r.traffic) = [5]) ∧
    ((checkAndResetTrafficF true false nowJan stDiff).lastResetFile = stDiff.lastResetFile) ∧
    (stDiff.lastResetFile.month ≠ nowJan.month) := by
  refine ⟨rfl, rfl, rfl, by decide⟩

/-- C5 amended: a checkpoint *read* failure aborts the cycle before any
reset — the state is completely unchanged, so the reset is retried on the
next scheduled run.  A checkpoint *write* failure, however, does not undo
the cycle: every user's traffic reset stays committed while the checkpoint
keeps its old value. -/
theorem claim5_amended :
    ∀ (w : Bool) (now : SchedTime) (st : SchedState),
      (checkAndResetTrafficF false w now st = st) ∧
      ((st.lastResetFile.year ≠ now.year ∨ st.lastResetFile.month ≠ now.month) →
        ((checkAndResetTrafficF true false now st).lastResetFile = st.lastResetFile) ∧
        ((checkAndResetTrafficF true false now st).store.users
            = st.store.users.map (fun r => { r with traffic := 0 }))) := by
  intro w now st
  constructor
  · rfl
  · intro h
    unfold checkAndResetTrafficF
    rw [if_neg (by simp), if_pos h]
    simp [resetAll_spec]

/-- Witness for C5 (amended): the read-failure no-op and the write-failure
partial commit at concrete states. -/
theorem claim5_witness :
    (checkAndResetTrafficF false true nowJan stDiff = stDiff) ∧
    ((checkAndResetTrafficF true false nowJan stDiff).lastResetFile = stDiff.lastResetFile) :=
  ⟨(claim5_amended true nowJan stDiff).1,
   ((claim5_amended true nowJan stDiff).2 (Or.inr (by decide))).1⟩

end TgDb
